import Mathlib

/-!
# Verification of the `every-types` matter codecs and element picker

Shallow embedding of the Rust sources of the `every-types` repository:

* `src/enum_matter.rs` — the `ENUM` row-major table codec,
* `src/perm_matter.rs` — the `PERM` column-major Cartesian-product codec,
* `src/elem_picker.rs` — picker flags/program decoding, the element
  resolver and the partial-replace patcher.

Bytes are modelled as natural numbers (real blobs have every byte `< 256`;
theorems that need that bound carry it as a hypothesis).  A blob is a
`List Nat`.  Rust `usize`/`u16`/`u8` arithmetic is modelled on `Nat` with
explicit `% 2^w` truncation / `≥ 2^w` overflow checks where the source uses
wrapping or `checked_*` operations.  Fallible Rust functions returning
`Result` are embedded as `Except`; functions that additionally contain
potentially panicking operations (out-of-bounds `[]` indexing, division by
zero) are embedded with the three-valued `Run` type below, whose `panic`
constructor marks exactly the inputs on which the Rust code would panic.
-/

namespace EveryTypes

/-- A byte blob: the contents of a Rust `&[u8]` / `Vec<u8>`. -/
abbrev Blob := List Nat

/-- A 32-byte cell (`Bytes32` in `types.rs`), modelled as a byte list. -/
abbrev Bytes32 := List Nat

/-- Outcome of running Rust code that may panic (`Run.panic`), return an
error (`Run.err`) or succeed (`Run.ok`). -/
inductive Run (ε α : Type) where
  | panic : Run ε α
  | err : ε → Run ε α
  | ok : α → Run ε α
deriving DecidableEq, Repr

/-- Map over the success value of a `Run`. -/
def Run.map {ε α β : Type} (f : α → β) : Run ε α → Run ε β
  | .panic => .panic
  | .err e => .err e
  | .ok a => .ok (f a)

/-- Rust `blob.get(a..b)`: `some` of the sub-slice when `a ≤ b ≤ len`,
`none` otherwise. -/
def sliceGet (l : Blob) (a b : Nat) : Option Blob :=
  if a ≤ b ∧ b ≤ l.length then some ((l.drop a).take (b - a)) else none

/-- Rust `v[i] = x` on a `Vec`: `some` of the updated list when `i` is in
bounds, `none` (a panic in Rust) otherwise. -/
def listSet (l : List Nat) (i x : Nat) : Option (List Nat) :=
  if i < l.length then some (l.set i x) else none

/-- Rust `u16::from_le_bytes` on two bytes. -/
def u16le (lo hi : Nat) : Nat := lo + 256 * hi

/-- Rust `u64::MAX + 1`: the overflow bound of Rust `usize`/`u64` arithmetic. -/
def U64MOD : Nat := 2 ^ 64

/-- Validity check shared by `aux_types` and `col_types`
(`enum_matter.rs` lines 104–118, `perm_matter.rs` lines 143–156): the
active prefix of length `n` must be all nonzero and the padding tail all
zero.  Returns `true` when the layout is BAD. -/
def badTypesLayout (n : Nat) (types : List Nat) : Bool :=
  (types.take n).any (· == 0) || (types.drop n).any (· != 0)

/-! ## ENUM codec (`enum_matter.rs`) -/

/-- Rust `EnumMatterError` (`enum_matter.rs` lines 4–38). -/
inductive EnumMatterError where
  | BadHeader
  | BadMagic (m : Blob)
  | BadVersion (v : Nat)
  | BadAuxCount (a : Nat)
  | BadColCount (c : Nat)
  | BadAuxTypes
  | BadColTypes
  | BadBody (expect got : Nat)
  | OobCell (row col : Nat)
  | OobAux (index : Nat)
  | Overflow
deriving DecidableEq, Repr

/-- The bytes of the magic `"ENUM"`. -/
def enumMagic : Blob := [0x45, 0x4E, 0x55, 0x4D]

/-- Rust `EnumMatterHeader` (`enum_matter.rs` lines 40–48). -/
structure EnumMatterHeader where
  magic : Blob
  ver_aux : Nat
  cols : Nat
  rows : Nat
  aux_types : Blob
  col_types : Blob
deriving DecidableEq, Repr

namespace EnumMatterHeader

/-- Rust `version()`: high nibble of `ver_aux`. -/
def version (h : EnumMatterHeader) : Nat := h.ver_aux / 16

/-- Rust `aux()`: low nibble of `ver_aux`. -/
def auxCount (h : EnumMatterHeader) : Nat := h.ver_aux % 16

/-- Rust `EnumMatterHeader::from` (`enum_matter.rs` lines 75–121).  All slice
extractions are guarded by the initial `blob.len() ≥ 32` check, so the
source's `try_into().unwrap()` calls cannot fail and the function is
embedded as a total `Except`. -/
def fromBlob (blob : Blob) : Except EnumMatterError EnumMatterHeader :=
  if blob.length < 32 then .error .BadHeader
  else
    let magic := blob.take 4
    if magic ≠ enumMagic then .error (.BadMagic magic)
    else
      let ver_aux := blob.getD 4 0
      if ver_aux / 16 ≠ 1 then .error (.BadVersion (ver_aux / 16))
      else if ver_aux % 16 > 8 then .error (.BadAuxCount (ver_aux % 16))
      else
        let cols := blob.getD 5 0
        if cols > 16 then .error (.BadColCount cols)
        else
          let rows := u16le (blob.getD 6 0) (blob.getD 7 0)
          let aux_types := (blob.drop 8).take 8
          if badTypesLayout (ver_aux % 16) aux_types then .error .BadAuxTypes
          else
            let col_types := (blob.drop 16).take 16
            if badTypesLayout cols col_types then .error .BadColTypes
            else .ok ⟨magic, ver_aux, cols, rows, aux_types, col_types⟩

end EnumMatterHeader

/-- Rust `EnumMatter` (`enum_matter.rs` lines 124–129). -/
structure EnumMatter where
  header : EnumMatterHeader
  aux_data : Blob
  row_data : Blob
deriving DecidableEq, Repr

namespace EnumMatter

/-- Rust `EnumMatter::from` (`enum_matter.rs` lines 132–165).  The size
arithmetic uses `checked_mul`/`checked_add` (modelled by the `≥ U64MOD`
tests); the two body slices use Rust's panicking `blob[a..b]` indexing,
modelled by `sliceGet` with `Run.panic` on `none`. -/
def fromBlob (blob : Blob) : Run EnumMatterError EnumMatter :=
  match EnumMatterHeader.fromBlob blob with
  | .error e => .err e
  | .ok header =>
    let aux_data_size := header.auxCount * 32
    if aux_data_size ≥ U64MOD then .err .Overflow
    else if header.cols * header.rows ≥ U64MOD then .err .Overflow
    else
      let row_data_size := header.cols * header.rows * 32
      if row_data_size ≥ U64MOD then .err .Overflow
      else if 32 + aux_data_size ≥ U64MOD then .err .Overflow
      else
        let expect_len := 32 + aux_data_size + row_data_size
        if expect_len ≥ U64MOD then .err .Overflow
        else if blob.length ≠ expect_len then
          .err (.BadBody expect_len blob.length)
        else
          let aux_end := 32 + aux_data_size
          match sliceGet blob 32 aux_end with
          | none => .panic
          | some aux_data =>
            match sliceGet blob aux_end (aux_end + row_data_size) with
            | none => .panic
            | some row_data => .ok ⟨header, aux_data, row_data⟩

/-- Rust `EnumMatter::cell_at` (`enum_matter.rs` lines 200–223). -/
def cell_at (m : EnumMatter) (row col : Nat) : Except EnumMatterError Bytes32 :=
  if row ≥ m.header.rows ∨ col ≥ m.header.cols then .error (.OobCell row col)
  else if row * m.header.cols ≥ U64MOD then .error .Overflow
  else if row * m.header.cols + col ≥ U64MOD then .error .Overflow
  else if (row * m.header.cols + col) * 32 ≥ U64MOD then .error .Overflow
  else
    let offset := (row * m.header.cols + col) * 32
    match sliceGet m.row_data offset (offset + 32) with
    | none => .error (.OobCell row col)
    | some s => .ok s

end EnumMatter

/-! ## PERM codec (`perm_matter.rs`) -/

/-- Rust `PermMatterError` (`perm_matter.rs` lines 289–334). -/
inductive PermMatterError where
  | BadHeader
  | BadMagic (m : Blob)
  | BadVersion (v : Nat)
  | BadAuxCount (a : Nat)
  | BadColCount (c : Nat)
  | BadAuxTypes
  | BadColTypes
  | BadEnumBitmap (bitmap : Nat) (cols : Nat)
  | BadHeightsBlock (need got : Nat)
  | BadColumnHeight (col : Nat)
  | BadBody (expect got : Nat)
  | OobAux (index : Nat)
  | OobCell (col index : Nat)
  | Overflow
deriving DecidableEq, Repr

/-- The bytes of the magic `"PERM"`. -/
def permMagic : Blob := [0x50, 0x45, 0x52, 0x4D]

/-- Rust `PermColumn` (`perm_matter.rs` lines 4–12). -/
structure PermColumn where
  col_idx : Nat
  col_type : Nat
  perm_col : Bool
  perm_idx : Nat
  col_offset : Nat
  col_height : Nat
deriving DecidableEq, Repr

/-- Rust `PermHeader` (`perm_matter.rs` lines 14–21). -/
structure PermHeader where
  aux : Blob
  cols : List PermColumn
  perm_cols : List PermColumn
  rows : Nat
  sum_heights : Nat
deriving DecidableEq, Repr

/-- The column-building loop of `PermHeader::from` (`perm_matter.rs`
lines 178–199).  The source computes `rows.checked_mul(col_height)` and
`sum_heights.checked_add(col_height)` only for their overflow test: the
results are discarded, so `rows` and `sum_heights` are never updated; the
embedding mirrors this faithfully. -/
def permBuildLoop (colTypes colHeights : List Nat) (enumCols : Nat) :
    List Nat → Nat → Nat → Nat → Nat → List PermColumn →
    Except PermMatterError (List PermColumn × Nat × Nat)
  | [], _colOffset, _permIdx, rows, sumHeights, acc => .ok (acc, rows, sumHeights)
  | i :: rest, colOffset, permIdx, rows, sumHeights, acc =>
    let col_height := colHeights.getD i 0
    let pc := decide (enumCols &&& (1 <<< (15 - i)) = 0)
    let col : PermColumn :=
      ⟨i, colTypes.getD i 0, pc, permIdx, colOffset, col_height⟩
    if rows * col_height ≥ U64MOD then .error .Overflow
    else if sumHeights + col_height ≥ U64MOD then .error .Overflow
    else
      permBuildLoop colTypes colHeights enumCols rest (colOffset + col_height)
        (permIdx + (if pc then 1 else 0)) rows sumHeights (acc ++ [col])

namespace PermHeader

/-- The `i`-th column height read from the heights block
(`u16::from_le_bytes(blob[32 + i*2 .. 34 + i*2])`). -/
def heightAt (blob : Blob) (i : Nat) : Nat :=
  u16le (blob.getD (32 + 2 * i) 0) (blob.getD (33 + 2 * i) 0)

/-- Rust `PermHeader::from` (`perm_matter.rs` lines 115–203). -/
def fromBlob (blob : Blob) : Except PermMatterError PermHeader :=
  if blob.length < 32 then .error .BadHeader
  else
    let magic := blob.take 4
    if magic ≠ permMagic then .error (.BadMagic magic)
    else
      let ver_aux := blob.getD 4 0
      if ver_aux / 16 ≠ 1 then .error (.BadVersion (ver_aux / 16))
      else if ver_aux % 16 > 8 then .error (.BadAuxCount (ver_aux % 16))
      else
        let cols_cnt := blob.getD 5 0
        if cols_cnt > 16 then .error (.BadColCount cols_cnt)
        else
          let enum_cols := u16le (blob.getD 6 0) (blob.getD 7 0)
          let aux_types := (blob.drop 8).take 8
          if badTypesLayout (ver_aux % 16) aux_types then .error .BadAuxTypes
          else
            let col_types := (blob.drop 16).take 16
            if badTypesLayout cols_cnt col_types then .error .BadColTypes
            else if cols_cnt > 0 ∧ blob.length < 64 then .error .BadHeader
            else
              let col_heights :=
                if cols_cnt > 0 then (List.range cols_cnt).map (heightAt blob) else []
              match (if cols_cnt > 0 then
                  ((List.range 16).drop cols_cnt).find? (fun i => heightAt blob i != 0)
                else none) with
              | some i => .error (.BadColumnHeight i)
              | none =>
                match permBuildLoop col_types col_heights enum_cols
                    (List.range cols_cnt) 0 0 1 0 [] with
                | .error e => .error e
                | .ok (colsL, rows, sum_heights) =>
                  .ok ⟨aux_types.take (ver_aux % 16), colsL,
                       colsL.filter (·.perm_col), rows, sum_heights⟩

/-- Rust `header_end()` (`perm_matter.rs` lines 50–56). -/
def header_end (h : PermHeader) : Nat := if h.cols = [] then 32 else 64

/-- Rust `aux_begin()`. -/
def aux_begin (h : PermHeader) : Nat := h.header_end

/-- Rust `aux_end()`. -/
def aux_end (h : PermHeader) : Nat := h.header_end + h.aux.length * 32

/-- Rust `col_begin()` (`perm_matter.rs` lines 68–71: returns `aux_begin`). -/
def col_begin (h : PermHeader) : Nat := h.aux_begin

/-- Rust `col_end()`. -/
def col_end (h : PermHeader) : Nat := h.aux_begin + h.sum_heights * 32

/-- The loop of `row_to_indexes` (`perm_matter.rs` lines 82–92), running
over the reverse-enumerated column list.  `idxs[c] = v` on the vector is
`listSet` (panics when out of bounds); `r % h` and `r / h` panic when
`h = 0`. -/
def rowToIndexesGo : List (Nat × PermColumn) → List Nat → Nat → Nat →
    Run PermMatterError (List Nat)
  | [], idxs, _row, _r => .ok idxs
  | (c, ci) :: rest, idxs, row, r =>
    if ci.perm_col then
      if ci.col_height = 0 then .panic
      else
        match listSet idxs c (r % ci.col_height) with
        | none => .panic
        | some idxs2 => rowToIndexesGo rest idxs2 row (r / ci.col_height)
    else
      match listSet idxs c row with
      | none => .panic
      | some idxs2 => rowToIndexesGo rest idxs2 row r

/-- Rust `PermHeader::row_to_indexes` (`perm_matter.rs` lines 78–94).  The
output vector is created with `Vec::with_capacity(cols)`, which has
length 0 — the embedding starts from the empty list accordingly. -/
def row_to_indexes (h : PermHeader) (row : Nat) : Run PermMatterError (List Nat) :=
  if row ≥ h.rows then .err .Overflow
  else rowToIndexesGo h.cols.enum.reverse [] row row

/-- The loop of `row_to_index` (`perm_matter.rs` lines 101–111). -/
def rowToIndexGo : List PermColumn → Nat → Nat → Nat → Run PermMatterError Nat
  | [], idx, _row, _r => .ok idx
  | ci :: rest, _idx, row, r =>
    if ci.perm_col then
      if ci.col_height = 0 then .panic
      else rowToIndexGo rest (r % ci.col_height) row (r / ci.col_height)
    else rowToIndexGo rest row row r

/-- Rust `PermHeader::row_to_index` (`perm_matter.rs` lines 96–113). -/
def row_to_index (h : PermHeader) (row col : Nat) : Run PermMatterError Nat :=
  if row ≥ h.rows ∨ col ≥ h.cols.length then .err .Overflow
  else rowToIndexGo h.cols.reverse 0 row row

end PermHeader

/-- Rust `PermMatter` (`perm_matter.rs` lines 206–211). -/
structure PermMatter where
  header : PermHeader
  aux_data : Blob
  col_data : Blob
deriving DecidableEq, Repr

namespace PermMatter

/-- Rust `PermMatter::from` (`perm_matter.rs` lines 214–225).  Both body
regions are extracted with the non-panicking `blob.get(..)`, mapped to
`Overflow` on `None`. -/
def fromBlob (blob : Blob) : Except PermMatterError PermMatter :=
  match PermHeader.fromBlob blob with
  | .error e => .error e
  | .ok header =>
    match sliceGet blob header.aux_begin header.aux_end with
    | none => .error .Overflow
    | some aux_data =>
      match sliceGet blob header.col_begin header.col_end with
      | none => .error .Overflow
      | some col_data => .ok ⟨header, aux_data, col_data⟩

/-- The gather loop of `PermMatter::row_at` (`perm_matter.rs` lines
272–285).  `col_info(col).unwrap()` panics when `col` is out of range. -/
def rowAtGo (m : PermMatter) : List (Nat × Nat) → Run PermMatterError (List Bytes32)
  | [] => .ok []
  | (col, index) :: rest =>
    match m.header.cols.get? col with
    | none => .panic
    | some ci =>
      let offset := (ci.col_offset + index) * 32
      match sliceGet m.col_data offset (offset + 32) with
      | none => .err (.OobCell col index)
      | some cell => (rowAtGo m rest).map (cell :: ·)

/-- Rust `PermMatter::row_at` (`perm_matter.rs` lines 270–286). -/
def row_at (m : PermMatter) (row : Nat) : Run PermMatterError (List Bytes32) :=
  match m.header.row_to_indexes row with
  | .panic => .panic
  | .err e => .err e
  | .ok idxs => rowAtGo m idxs.enum

end PermMatter

/-- The gather loop of `EnumMatter::row_at` (`enum_matter.rs` lines
236–249). -/
def enumRowAtGo (row_data : Blob) (row : Nat) :
    List Nat → Nat → Except EnumMatterError (List Bytes32)
  | [], _offset => .ok []
  | col :: rest, offset =>
    if offset + 32 ≥ U64MOD then .error .Overflow
    else
      match sliceGet row_data offset (offset + 32) with
      | none => .error (.OobCell row col)
      | some cell => (enumRowAtGo row_data row rest (offset + 32)).map (cell :: ·)

/-- Rust `EnumMatter::row_at` (`enum_matter.rs` lines 225–251). -/
def EnumMatter.row_at (m : EnumMatter) (row : Nat) :
    Except EnumMatterError (List Bytes32) :=
  if row ≥ m.header.rows then .error (.OobCell row 0)
  else if row * m.header.cols ≥ U64MOD then .error .Overflow
  else if row * m.header.cols * 32 ≥ U64MOD then .error .Overflow
  else enumRowAtGo m.row_data row (List.range m.header.cols)
    (row * m.header.cols * 32)

/-! ## Identifiers and matter records (`types.rs`, `constants.rs`,
`elem_types.rs`) -/

/-- Rust `OID` (`types.rs`).  The source field `universe` is a Lean keyword and
is rendered `univ` here. -/
structure OID where
  univ : Nat
  set : Nat
  id : Nat
deriving DecidableEq, Repr

/-- Rust `Constants::ID_SET_OF_SET`. -/
def ID_SET_OF_SET : Nat := 1

/-- Rust `Constants::ID_SET_OF_KIND`. -/
def ID_SET_OF_KIND : Nat := 2

/-- Rust `OID::set_oid` (`types.rs`). -/
def OID.set_oid (o : OID) : OID := ⟨o.univ, ID_SET_OF_SET, o.set⟩

/-- Rust `OID::kind_oid` (`types.rs`). -/
def OID.kind_oid (o : OID) (kind : Nat) : OID := ⟨o.univ, ID_SET_OF_KIND, kind⟩

/-- Rust `Descriptor` (`types.rs`). -/
structure Descriptor where
  traits : Nat
  rev : Nat
  krev : Nat
  srev : Nat
  kind : Nat
deriving DecidableEq, Repr

/-- Rust `Matter` (`types.rs`): form byte, 31-byte MIME tag, blob. -/
structure Matter where
  form : Nat
  mime : Blob
  blob : Blob
deriving DecidableEq, Repr

/-- Rust `MatterForm::Enum as u8` (`elem_types.rs`). -/
def matterFormEnum : Nat := 0xD0

/-- Rust `MatterForm::Perm as u8` (`elem_types.rs`). -/
def matterFormPerm : Nat := 0xD1

/-- The `StateReader` capability as used by the picker (`elem_picker.rs`
imports it with an opaque error type `E`; every reader failure is mapped
to a fixed `ElementError`, so the opaque error is modelled by `none`). -/
structure StateReader where
  get_matter : Bytes32 → Option Matter
  get_snapshot : OID → Nat → Option (Descriptor × List Bytes32)

/-! ## Element picker (`elem_picker.rs`) -/

/-- Rust `ElementError` (`elem_picker.rs` lines 16–54). -/
inductive ElementError where
  | InvalidElementSource
  | InvalidPickerPadding
  | NotCollection
  | EnumMatterFrom
  | EnumMatterRowAt
  | PermMatterFrom
  | PermMatterRowAt
  | NoHereCollection
  | NoCustomPicker
  | NoPreviousRevision
  | StateReaderGetMatter
  | StateReaderGetSnapshot
  | CacheGet
  | RowOutOfBounds
  | ColOutOfBounds
  | InvalidMutBits
  | ResultLengthMismatch
  | InvalidElementLength
deriving DecidableEq, Repr

/-- Rust `PickFrom` (`elem_picker.rs` lines 56–64). -/
inductive PickFrom where
  | HereElements
  | HereCollection
  | SetData
  | KindData
  | ObjectData
deriving DecidableEq, Repr

/-- Rust `PickFrom as u8`: the discriminant values. -/
def PickFrom.toNat : PickFrom → Nat
  | .HereElements => 0
  | .HereCollection => 1
  | .SetData => 2
  | .KindData => 4
  | .ObjectData => 8

/-- Rust `PickFrom::from_nibble` (`elem_picker.rs` lines 72–85). -/
def PickFrom.from_nibble (n : Nat) : Except ElementError PickFrom :=
  match n with
  | 0 => .ok .HereElements
  | 1 => .ok .HereCollection
  | 2 => .ok .SetData
  | 4 => .ok .KindData
  | 8 => .ok .ObjectData
  | _ => .error .InvalidElementSource

/-- Rust `PickerFlags` (`elem_picker.rs` lines 87–93). -/
structure PickerFlags where
  mut_bits : Nat
  custom : Bool
  here_coll : Bool
  row_from : PickFrom
deriving DecidableEq, Repr

/-- Rust `PickerFlags::decode` (`elem_picker.rs` lines 113–122). -/
def PickerFlags.decode (v : Nat) : Except ElementError PickerFlags :=
  match PickFrom.from_nibble (v &&& 0x0F) with
  | .error e => .error e
  | .ok row_from =>
    .ok ⟨(v >>> 16) &&& 0xFFFF, v &&& 0b10000 ≠ 0,
         row_from = PickFrom.HereCollection, row_from⟩

/-- Rust `PickerFlags::encode` (`elem_picker.rs` lines 124–126). -/
def PickerFlags.encode (f : PickerFlags) : Nat :=
  (f.mut_bits <<< 16) ||| ((if f.custom then 1 else 0) <<< 4) ||| f.row_from.toNat

/-- Rust `PickOne` (`elem_picker.rs` lines 129–133). -/
structure PickOne where
  src : PickFrom
  idx : Nat
deriving DecidableEq, Repr

namespace PickOne

/-- Rust `PickOne::decode` (`elem_picker.rs` lines 136–138). -/
def decode (byte : Nat) : Except ElementError PickOne :=
  match PickFrom.from_nibble (byte >>> 4) with
  | .error e => .error e
  | .ok src => .ok ⟨src, byte &&& 0x0F⟩

/-- Rust `PickOne::encode` (`elem_picker.rs` lines 140–142). -/
def encode (p : PickOne) : Nat :=
  (p.src.toNat <<< 4) ||| (p.idx &&& 0x0F)

/-- Rust `PickOne::decode2` (`elem_picker.rs` lines 144–146): the wire byte's
high nibble is the bit-inverted source (`!byte` on `u8` is `255 - byte`). -/
def decode2 (byte : Nat) : Except ElementError PickOne :=
  match PickFrom.from_nibble ((255 - byte) >>> 4) with
  | .error e => .error e
  | .ok src => .ok ⟨src, byte &&& 0x0F⟩

/-- Rust `PickOne::encode2` (`elem_picker.rs` lines 148–150): `u8` shift of the
inverted source nibble, truncated modulo 256. -/
def encode2 (p : PickOne) : Nat :=
  (((255 - p.src.toNat) <<< 4) % 256) ||| (p.idx &&& 0x0F)

end PickOne

/-- Rust `PickMany` (`elem_picker.rs` lines 153–156). -/
structure PickMany where
  picks : List PickOne
deriving DecidableEq, Repr

/-- The loop of `PickMany::decode` (`elem_picker.rs` lines 160–174):
stop at the first zero byte and require the remaining bytes to be zero. -/
def pickManyGo : List Nat → Bool → Except ElementError (List PickOne)
  | [], _padded => .ok []
  | b :: rest, padded =>
    if b = 0 then pickManyGo rest true
    else if padded then .error .InvalidPickerPadding
    else
      match PickOne.decode2 b with
      | .error e => .error e
      | .ok p => (pickManyGo rest padded).map (p :: ·)

/-- Rust `PickMany::decode` (`elem_picker.rs` lines 160–174): first 16 bytes
of the 32-byte picker buffer only. -/
def PickMany.decode (picker : Bytes32) : Except ElementError PickMany :=
  (pickManyGo (picker.take 16) false).map PickMany.mk

/-- Rust `ElementPicker` (`elem_picker.rs` lines 185–190). -/
structure ElementPicker where
  flags : PickerFlags
  here_elems : List Bytes32
  here_coll : Option Bytes32
  custom : Option PickMany
deriving DecidableEq, Repr

namespace ElementPicker

/-- The tail of `ElementPicker::new` after the custom-picker pop
(`elem_picker.rs` lines 203–210): pop the here-collection hash when
`flags.here_coll` is set, the rest becomes `here_elems`. -/
def newRest (f : PickerFlags) (custom : Option PickMany) (elems : List Bytes32) :
    Except ElementError ElementPicker :=
  if f.here_coll then
    match elems.getLast? with
    | none => .error .NoHereCollection
    | some hc => .ok ⟨f, elems.dropLast, some hc, custom⟩
  else .ok ⟨f, elems, none, custom⟩

/-- Rust `ElementPicker::new` (`elem_picker.rs` lines 193–211).  `Vec::pop`
removes the last element (`getLast?`/`dropLast`). -/
def new (flags : Nat) (elems : List Bytes32) : Except ElementError ElementPicker :=
  match PickerFlags.decode flags with
  | .error e => .error e
  | .ok f =>
    if f.custom then
      match elems.getLast? with
      | none => .error .NoCustomPicker
      | some picker =>
        match PickMany.decode picker with
        | .error e => .error e
        | .ok pm => newRest f (some pm) elems.dropLast
    else newRest f none elems

end ElementPicker

/-- Rust `CollectionMatter` (`elem_picker.rs` lines 335–338). -/
inductive CollectionMatter where
  | enumM : EnumMatter → CollectionMatter
  | permM : PermMatter → CollectionMatter
deriving DecidableEq, Repr

namespace CollectionMatter

/-- Rust `CollectionMatter::from_matter` (`elem_picker.rs` lines 341–351):
dispatch on the matter's form byte. -/
def from_matter (matter : Matter) : Run ElementError CollectionMatter :=
  if matter.form = matterFormEnum then
    match EnumMatter.fromBlob matter.blob with
    | .panic => .panic
    | .err _ => .err .EnumMatterFrom
    | .ok m => .ok (.enumM m)
  else if matter.form = matterFormPerm then
    match PermMatter.fromBlob matter.blob with
    | .error _ => .err .PermMatterFrom
    | .ok m => .ok (.permM m)
  else .err .NotCollection

/-- Rust `CollectionMatter::row_at` (`elem_picker.rs` lines 353–367).  The
source first converts the `u64` row to `usize`, which cannot fail on the
64-bit targets modelled here, so the conversion is the identity. -/
def row_at (c : CollectionMatter) (row : Nat) : Run ElementError (List Bytes32) :=
  match c with
  | .enumM m =>
    match m.row_at row with
    | .error _ => .err .EnumMatterRowAt
    | .ok v => .ok v
  | .permM m =>
    match m.row_at row with
    | .panic => .panic
    | .err _ => .err .PermMatterRowAt
    | .ok v => .ok v

end CollectionMatter

namespace ElementPicker

/-- Rust `ElementPicker::pick_coll_row` (`elem_picker.rs` lines 323–332). -/
def pick_coll_row (state : StateReader) (hash : Bytes32) (row : Nat) :
    Run ElementError (List Bytes32) :=
  match state.get_matter hash with
  | none => .err .StateReaderGetMatter
  | some matter =>
    match CollectionMatter.from_matter matter with
    | .panic => .panic
    | .err e => .err e
    | .ok coll => coll.row_at row

/-- Rust `ElementPicker::pick_row` (`elem_picker.rs` lines 284–321).  The
`SetData`/`KindData` arms index `elems[1]`, which panics when the snapshot
has fewer than two elements. -/
def pick_row (p : ElementPicker) (state : StateReader) (oid : OID)
    (desc : Descriptor) (src : PickFrom) (row : Nat) :
    Run ElementError (List Bytes32) :=
  match src with
  | .HereElements => .ok p.here_elems
  | .HereCollection =>
    match p.here_coll with
    | none => .err .NoHereCollection
    | some hash => pick_coll_row state hash row
  | .SetData =>
    match state.get_snapshot oid.set_oid desc.srev with
    | none => .err .StateReaderGetSnapshot
    | some (_, elems) =>
      match elems.get? 1 with
      | none => .panic
      | some h => pick_coll_row state h row
  | .KindData =>
    match state.get_snapshot (oid.kind_oid desc.kind) desc.krev with
    | none => .err .StateReaderGetSnapshot
    | some (_, elems) =>
      match elems.get? 1 with
      | none => .panic
      | some h => pick_coll_row state h row
  | .ObjectData =>
    if desc.rev ≤ 1 then .err .NoPreviousRevision
    else
      match state.get_snapshot oid (desc.rev - 1) with
      | none => .err .StateReaderGetSnapshot
      | some (_, prev_elems) => .ok prev_elems

/-- The instruction loop of `ElementPicker::resolve` (`elem_picker.rs`
lines 223–232) with `pick_row_cached` (lines 268–282) inlined: the cache
is an association list keyed by `PickFrom`, consulted before `pick_row`
and extended on a miss. -/
def resolveGo (p : ElementPicker) (state : StateReader) (oid : OID)
    (desc : Descriptor) (row : Nat) :
    List PickOne → List (PickFrom × List Bytes32) → Run ElementError (List Bytes32)
  | [], _cache => .ok []
  | pk :: rest, cache =>
    match cache.lookup pk.src with
    | some rowv =>
      match rowv.get? pk.idx with
      | none => .err .ColOutOfBounds
      | some elem => (resolveGo p state oid desc row rest cache).map (elem :: ·)
    | none =>
      match pick_row p state oid desc pk.src row with
      | .panic => .panic
      | .err e => .err e
      | .ok rowv =>
        match rowv.get? pk.idx with
        | none => .err .ColOutOfBounds
        | some elem =>
          (resolveGo p state oid desc row rest ((pk.src, rowv) :: cache)).map
            (elem :: ·)

/-- Rust `ElementPicker::resolve` (`elem_picker.rs` lines 213–233).  The row
index is `oid.id.saturating_sub(1)` (truncated subtraction on `Nat`). -/
def resolve (p : ElementPicker) (state : StateReader) (oid : OID)
    (desc : Descriptor) : Run ElementError (List Bytes32) :=
  let row_index := oid.id - 1
  match p.custom with
  | none => pick_row p state oid desc p.flags.row_from row_index
  | some pm => resolveGo p state oid desc row_index pm.picks []

/-- Rust `u16::count_ones` for values below `2^16`. -/
def countOnes16 (x : Nat) : Nat :=
  ((List.range 16).filter (fun i => x &&& (1 <<< i) != 0)).length

/-- The partial-replace loop of `ElementPicker::patch` (`elem_picker.rs`
lines 258–265): walk `prev` with index `i`, consuming `resolved` at each
set bit `15 - i`.  `resolved[j]` panics when the queue is exhausted. -/
def patchGo (mb : Nat) : List Bytes32 → List Bytes32 → Nat →
    Run ElementError (List Bytes32)
  | [], _rs, _i => .ok []
  | p :: ps, rs, i =>
    if mb &&& (1 <<< (15 - i)) ≠ 0 then
      match rs with
      | [] => .panic
      | r :: rs2 => (patchGo mb ps rs2 (i + 1)).map (r :: ·)
    else (patchGo mb ps rs (i + 1)).map (p :: ·)

/-- Rust `ElementPicker::patch` (`elem_picker.rs` lines 235–266).
`!0u16 << (16 - n)` is modelled as a truncating `u16` shift (for `n = 0`
the Rust shift amount equals the bit width, an overflowing shift). -/
def patch (prev resolved : List Bytes32) (flags_mut_bits : Nat) :
    Run ElementError (List Bytes32) :=
  let n := prev.length
  if ¬ n ≤ 16 then .err .InvalidElementLength
  else
    let mask := (0xFFFF <<< (16 - n)) % 65536
    let mut_bits := flags_mut_bits &&& mask
    if mut_bits ≠ flags_mut_bits then .err .InvalidMutBits
    else if mut_bits = 0 then
      if resolved.length ≠ n then .err .ResultLengthMismatch
      else .ok resolved
    else
      if resolved.length ≠ countOnes16 mut_bits then .err .ResultLengthMismatch
      else patchGo mut_bits prev resolved 0

end ElementPicker

/-! ## Concrete inputs used by the theorems -/

/-- A 64-byte PERM blob: version 1, no aux, one column of height 2,
`enum_cols = 0` (so column 0 is a permutation column), `col_type[0] = 1`. -/
def permBlobH2 : Blob :=
  [0x50, 0x45, 0x52, 0x4D, 0x10, 1, 0, 0] ++ List.replicate 8 0 ++
  (1 :: List.replicate 15 0) ++ (2 :: List.replicate 31 0)

/-- The header `PermHeader::from` produces for `permBlobH2`. -/
def permHdrH2 : PermHeader :=
  ⟨[], [⟨0, 1, true, 0, 0, 2⟩], [⟨0, 1, true, 0, 0, 2⟩], 1, 0⟩

/-- A 33-byte PERM blob: a valid 32-byte header with `cols = 0` and
`aux = 0` followed by one stray trailing byte. -/
def permBlobPad : Blob :=
  [0x50, 0x45, 0x52, 0x4D, 0x10, 0, 0, 0] ++ List.replicate 24 0 ++ [7]

/-! ## Helper lemmas -/

/-- Evaluating `sliceGet` over an in-bounds window `[a, a + n)`. -/
theorem sliceGet_window {l : Blob} {a n : Nat} (hb : a + n ≤ l.length) :
    sliceGet l a (a + n) = some ((l.drop a).take n) := by
  rw [sliceGet, if_pos ⟨Nat.le_add_right _ _, hb⟩, Nat.add_sub_cancel_left]

/-- Re-slicing a window of a window: taking `n` elements at offset `o`
inside the window of `B` elements at offset `A` of `l` is taking `n`
elements at offset `A + o` of `l`, provided the inner window fits. -/
theorem window_window (l : Blob) (A B o n : Nat) (h : o + n ≤ B) :
    (((l.drop A).take B).drop o).take n = (l.drop (A + o)).take n := by
  rw [List.drop_take B o, List.take_take, List.drop_drop]
  congr 1
  omega

/-- Every in-bounds `getD` on a byte list is below 256. -/
theorem getD_lt_256 {l : Blob} (hb : ∀ b ∈ l, b < 256) {i : Nat}
    (hi : i < l.length) : l.getD i 0 < 256 := by
  rw [List.getD_eq_getElem l 0 hi]
  exact hb _ (List.getElem_mem hi)

/-- Inversion of a successful `EnumMatterHeader::from`: the field values
and the range checks the parse enforces. -/
theorem enum_header_fromBlob_ok {blob : Blob} {h : EnumMatterHeader}
    (hp : EnumMatterHeader.fromBlob blob = .ok h) :
    32 ≤ blob.length ∧ h.ver_aux = blob.getD 4 0 ∧ h.cols = blob.getD 5 0 ∧
    h.rows = u16le (blob.getD 6 0) (blob.getD 7 0) ∧ h.cols ≤ 16 := by
  simp only [EnumMatterHeader.fromBlob] at hp
  split_ifs at hp with h1 h2 h3 h4 h5 h6 h7
  simp only [Except.ok.injEq] at hp
  subst hp
  exact ⟨by omega, rfl, rfl, rfl, show blob.getD 5 0 ≤ 16 by omega⟩

/-! ## Claim theorems -/

/-- C1: the claim fails on the code.  `PermHeader::from` parses the
64-byte PERM blob with one permutation column of height 2, yet leaves
`rows = 1` (≠ 2, the product of the permutation-column heights) and
`sum_heights = 0` (≠ 2, the sum of all column heights): lines 196–197 of
`perm_matter.rs` discard the results of `checked_mul`/`checked_add`, so
the fields keep their initial values, contradicting the struct's own
field documentation. -/
theorem perm_rows_sum_heights_never_accumulated :
    PermHeader.fromBlob permBlobH2 = .ok permHdrH2 ∧
    permHdrH2.rows = 1 ∧
    (permHdrH2.perm_cols.map (·.col_height)).prod = 2 ∧
    permHdrH2.sum_heights = 0 ∧
    (permHdrH2.cols.map (·.col_height)).sum = 2 := by
  refine ⟨by rfl, by decide, by decide, by decide, by decide⟩

/-- C2: the claim fails on the code.  For the successfully parsed header
of `permBlobH2` (one permutation column) and the in-range row 0,
`row_to_indexes` panics: the output vector is created with
`Vec::with_capacity(cols)`, which has length 0, so the out-of-order
assignment `idxs[c] = …` (line 87 of `perm_matter.rs`) indexes out of
bounds instead of returning a vector of length `cols`. -/
theorem perm_row_to_indexes_panics_on_empty_vec :
    PermHeader.fromBlob permBlobH2 = .ok permHdrH2 ∧
    0 < permHdrH2.rows ∧
    permHdrH2.row_to_indexes 0 = .panic := by
  refine ⟨by rfl, by decide, by rfl⟩

/-- C3: the claim fails on the code.  The 33-byte blob `permBlobPad` is
one byte longer than its computed expected size of 32 bytes
(`header_end + (aux + Σ col_height) * 32` with no columns and no aux),
yet `PermMatter::from` accepts it: the body regions are extracted with
`blob.get(..)`, which only requires the blob to be long enough, so an
oversized blob is never rejected (the `BadBody` error variant exists but
is never raised). -/
theorem perm_matter_accepts_oversized_blob :
    PermMatter.fromBlob permBlobPad = .ok ⟨⟨[], [], [], 1, 0⟩, [], []⟩ ∧
    permBlobPad.length = 33 ∧
    (⟨[], [], [], 1, 0⟩ : PermHeader).header_end +
      (([] : Blob).length + (([] : List PermColumn).map (·.col_height)).sum) * 32
      = 32 := by
  refine ⟨by rfl, by decide, by decide⟩

/-- C5: for every previous element vector of length at most 16 and every
resolved vector of the same length, `ElementPicker::patch` with
`mut_bits = 0` succeeds and returns the resolved vector unchanged (full
replace). -/
theorem patch_zero_mut_bits_full_replace
    (prev resolved : List Bytes32)
    (hlen : prev.length ≤ 16) (heq : resolved.length = prev.length) :
    ElementPicker.patch prev resolved 0 = .ok resolved := by
  unfold ElementPicker.patch
  simp [hlen, heq]

/-- C5 witness: `patch` at concrete two-element vectors. -/
theorem patch_zero_mut_bits_full_replace_witness :
    ElementPicker.patch [[1], [2]] [[3], [4]] 0 = .ok [[3], [4]] :=
  patch_zero_mut_bits_full_replace [[1], [2]] [[3], [4]] (by decide) (by decide)

/-- C7: for every picker instruction `PickOne{src, idx}` with `src` in
the closed source set and `idx < 16`, decoding the bit-inverted wire byte
produced by `encode2` yields the instruction back. -/
theorem pick_one_decode2_encode2_roundtrip
    (src : PickFrom) (idx : Nat) (hidx : idx < 16) :
    PickOne.decode2 (PickOne.encode2 ⟨src, idx⟩) = .ok ⟨src, idx⟩ := by
  interval_cases idx <;> cases src <;> rfl

/-- C7 witness: the round-trip at `src = SetData`, `idx = 7`. -/
theorem pick_one_decode2_encode2_roundtrip_witness :
    PickOne.decode2 (PickOne.encode2 ⟨.SetData, 7⟩) = .ok ⟨.SetData, 7⟩ :=
  pick_one_decode2_encode2_roundtrip .SetData 7 (by decide)

/-- C8: reading from the `ObjectData` source fails with
`NoPreviousRevision` exactly when `desc.rev ≤ 1`; otherwise it returns
the element vector of the snapshot the state reader yields for
`(oid, desc.rev - 1)`. -/
theorem pick_row_object_data_previous_revision
    (p : ElementPicker) (state : StateReader) (oid : OID) (desc : Descriptor)
    (row : Nat) :
    (p.pick_row state oid desc .ObjectData row = .err .NoPreviousRevision ↔
      desc.rev ≤ 1) ∧
    (∀ d es, 1 < desc.rev →
      state.get_snapshot oid (desc.rev - 1) = some (d, es) →
      p.pick_row state oid desc .ObjectData row = .ok es) := by
  constructor
  · unfold ElementPicker.pick_row
    by_cases hrev : desc.rev ≤ 1
    · simp [hrev]
    · simp only [if_neg hrev]
      cases hsnap : state.get_snapshot oid (desc.rev - 1) with
      | none => simp [hrev]
      | some pr => cases pr with
        | mk d es => simp [hrev]
  · intro d es hrev hsnap
    unfold ElementPicker.pick_row
    rw [if_neg (by omega), hsnap]

/-- C8 witness: `ObjectData` at `rev = 3` with a reader that returns a
one-element snapshot for revision 2. -/
theorem pick_row_object_data_previous_revision_witness :
    (ElementPicker.pick_row
      ⟨⟨0, false, false, .HereElements⟩, [], none, none⟩
      ⟨fun _ => none, fun _ _ => some (⟨0, 2, 1, 1, 0⟩, [[9]])⟩
      ⟨1, 2, 3⟩ ⟨0, 3, 1, 1, 0⟩ .ObjectData 0 = .ok [[9]]) ∧
    ¬ (3 : Nat) ≤ 1 :=
  ⟨(pick_row_object_data_previous_revision _ _ _ _ _).2 ⟨0, 2, 1, 1, 0⟩ [[9]]
      (by decide) rfl,
    by decide⟩

/-- C6: for every blob (ENUM or PERM) that passes the length, magic,
version and count checks, a zero byte in the active prefix of
`aux_types`, or a nonzero byte in its padding tail, makes parsing fail
with `BadAuxTypes`; with `aux_types` well-formed, the same violation in
`col_types` makes parsing fail with `BadColTypes`. -/
theorem types_layout_violations_rejected
    (blob : Blob)
    (hlen : ¬ blob.length < 32)
    (hver : blob.getD 4 0 / 16 = 1)
    (haux : ¬ blob.getD 4 0 % 16 > 8)
    (hcols : ¬ blob.getD 5 0 > 16) :
    ((blob.take 4 = enumMagic) →
      (badTypesLayout (blob.getD 4 0 % 16) ((blob.drop 8).take 8) = true →
        EnumMatterHeader.fromBlob blob = .error .BadAuxTypes) ∧
      (badTypesLayout (blob.getD 4 0 % 16) ((blob.drop 8).take 8) = false →
        badTypesLayout (blob.getD 5 0) ((blob.drop 16).take 16) = true →
        EnumMatterHeader.fromBlob blob = .error .BadColTypes)) ∧
    ((blob.take 4 = permMagic) →
      (badTypesLayout (blob.getD 4 0 % 16) ((blob.drop 8).take 8) = true →
        PermHeader.fromBlob blob = .error .BadAuxTypes) ∧
      (badTypesLayout (blob.getD 4 0 % 16) ((blob.drop 8).take 8) = false →
        badTypesLayout (blob.getD 5 0) ((blob.drop 16).take 16) = true →
        PermHeader.fromBlob blob = .error .BadColTypes)) := by
  constructor
  · intro hmagic
    constructor
    · intro hbadAux
      unfold EnumMatterHeader.fromBlob
      rw [if_neg hlen, if_neg (by simp [hmagic]), if_neg (by simp only [ne_eq, Decidable.not_not]; exact hver),
        if_neg haux, if_neg hcols, if_pos hbadAux]
    · intro hgoodAux hbadCol
      unfold EnumMatterHeader.fromBlob
      rw [if_neg hlen, if_neg (by simp [hmagic]), if_neg (by simp only [ne_eq, Decidable.not_not]; exact hver),
        if_neg haux, if_neg hcols, if_neg (by simp only [Bool.not_eq_true]; exact hgoodAux), if_pos hbadCol]
  · intro hmagic
    constructor
    · intro hbadAux
      unfold PermHeader.fromBlob
      rw [if_neg hlen, if_neg (by simp [hmagic]), if_neg (by simp only [ne_eq, Decidable.not_not]; exact hver),
        if_neg haux, if_neg hcols, if_pos hbadAux]
    · intro hgoodAux hbadCol
      unfold PermHeader.fromBlob
      rw [if_neg hlen, if_neg (by simp [hmagic]), if_neg (by simp only [ne_eq, Decidable.not_not]; exact hver),
        if_neg haux, if_neg hcols, if_neg (by simp only [Bool.not_eq_true]; exact hgoodAux), if_pos hbadCol]

/-- C4: for every ENUM blob whose header parses with dimensions
`(aux, cols, rows)` and whose length is exactly
`32 + (aux + rows*cols) * 32`, parsing succeeds, and every in-range
`cell_at(r, c)` returns exactly the 32 bytes of the original blob at
offset `32 + aux*32 + (r*cols + c)*32`. -/
theorem enum_cell_at_matches_blob_bytes
    (blob : Blob) (h : EnumMatterHeader)
    (hbytes : ∀ b ∈ blob, b < 256)
    (hparse : EnumMatterHeader.fromBlob blob = .ok h)
    (hlen : blob.length = 32 + (h.auxCount + h.rows * h.cols) * 32) :
    ∃ m, EnumMatter.fromBlob blob = .ok m ∧
      ∀ r c, r < h.rows → c < h.cols →
        m.cell_at r c =
          .ok ((blob.drop (32 + h.auxCount * 32 + (r * h.cols + c) * 32)).take 32) := by
  obtain ⟨hlen32, hva, hcolsv, hrowsv, hcolsle⟩ := enum_header_fromBlob_ok hparse
  have hb6 : blob.getD 6 0 < 256 := getD_lt_256 hbytes (by omega)
  have hb7 : blob.getD 7 0 < 256 := getD_lt_256 hbytes (by omega)
  have hrowsb : h.rows < 65536 := by rw [hrowsv]; unfold u16le; omega
  have hauxb : h.auxCount < 16 := Nat.mod_lt _ (by omega)
  have hcr : h.cols * h.rows ≤ 1048560 :=
    le_trans (Nat.mul_le_mul hcolsle (Nat.le_of_lt_succ hrowsb)) (by norm_num)
  have hcomm : h.rows * h.cols = h.cols * h.rows := Nat.mul_comm _ _
  have hU : (33554976 : Nat) < U64MOD := by norm_num [U64MOD]
  refine ⟨⟨h, (blob.drop 32).take (h.auxCount * 32),
    (blob.drop (32 + h.auxCount * 32)).take (h.cols * h.rows * 32)⟩, ?_, ?_⟩
  · simp only [EnumMatter.fromBlob, hparse]
    rw [if_neg (by omega), if_neg (by omega), if_neg (by omega),
      if_neg (by omega), if_neg (by omega), if_neg (by omega),
      sliceGet_window (by omega), sliceGet_window (by omega)]
  · intro r c hr hc
    have hkey : r * h.cols + c + 1 ≤ h.rows * h.cols := by
      have h2 : (r + 1) * h.cols ≤ h.rows * h.cols :=
        Nat.mul_le_mul hr (Nat.le_refl _)
      calc r * h.cols + c + 1 ≤ r * h.cols + h.cols := by omega
        _ = (r + 1) * h.cols := by ring
        _ ≤ h.rows * h.cols := h2
    simp only [EnumMatter.cell_at]
    rw [if_neg (by omega), if_neg (by omega), if_neg (by omega),
      if_neg (by omega),
      sliceGet_window (by rw [List.length_take, List.length_drop]; omega),
      window_window blob _ _ _ _ (by omega)]

/-- A 64-byte ENUM blob: version 1, no aux, one column, one row, body the
bytes `0..31`. -/
def enumBlob64 : Blob :=
  [0x45, 0x4E, 0x55, 0x4D, 0x10, 1, 1, 0] ++ List.replicate 8 0 ++
  (1 :: List.replicate 15 0) ++ List.range 32

/-- The header `EnumMatterHeader::from` produces for `enumBlob64`. -/
def enumHdr64 : EnumMatterHeader :=
  ⟨enumMagic, 0x10, 1, 1, List.replicate 8 0, 1 :: List.replicate 15 0⟩

/-- C4 witness: the cell law at the concrete one-cell ENUM blob. -/
theorem enum_cell_at_matches_blob_bytes_witness :
    ∃ m, EnumMatter.fromBlob enumBlob64 = .ok m ∧
      ∀ r c, r < enumHdr64.rows → c < enumHdr64.cols →
        m.cell_at r c =
          .ok ((enumBlob64.drop
            (32 + enumHdr64.auxCount * 32 +
              (r * enumHdr64.cols + c) * 32)).take 32) :=
  enum_cell_at_matches_blob_bytes enumBlob64 enumHdr64 (by decide) (by rfl)
    (by decide)

/-- C9: ENUM parsing is total.  For every input byte sequence,
`EnumMatter::from` returns `Ok` or one of the declared errors and never
panics: the size arithmetic is overflow-checked, and once the blob length
has been checked equal to the expected length the aux-region and
row-region slices are in bounds. -/
theorem enum_matter_from_never_panics (blob : Blob) :
    EnumMatter.fromBlob blob ≠ .panic := by
  simp only [EnumMatter.fromBlob]
  split
  · simp
  · split_ifs with h1 h2 h3 h4 h5 h6
    · simp
    · simp
    · simp
    · simp
    · simp
    · simp
    · rw [sliceGet_window (by omega), sliceGet_window (by omega)]
      simp

/-- C10: when the decoded flags have `custom` set and the popped 32-byte
picker buffer is all zeros, construction succeeds with an empty
instruction program, and `resolve` returns the empty element vector for
every state reader (so the reader is never consulted). -/
theorem resolve_all_zero_picker_returns_empty
    (v : Nat) (f : PickerFlags) (elems : List Bytes32) (p : ElementPicker)
    (hf : PickerFlags.decode v = .ok f)
    (hcustom : f.custom = true)
    (hlast : elems.getLast? = some (List.replicate 32 0))
    (hnew : ElementPicker.new v elems = .ok p) :
    p.custom = some ⟨[]⟩ ∧
    ∀ (state : StateReader) (oid : OID) (desc : Descriptor),
      p.resolve state oid desc = .ok [] := by
  have hdec : PickMany.decode (List.replicate 32 0) = .ok ⟨[]⟩ := by rfl
  have hcu : p.custom = some ⟨[]⟩ := by
    simp only [ElementPicker.new, hf, hcustom, if_true, hlast, hdec] at hnew
    simp only [ElementPicker.newRest] at hnew
    split_ifs at hnew with hhc
    · cases hgl : (elems.dropLast).getLast? with
      | none => rw [hgl] at hnew; exact Except.noConfusion hnew
      | some hc =>
        rw [hgl] at hnew
        simp only [Except.ok.injEq] at hnew
        subst hnew
        rfl
    · simp only [Except.ok.injEq] at hnew
      subst hnew
      rfl
  refine ⟨hcu, ?_⟩
  intro state oid desc
  simp only [ElementPicker.resolve, hcu]
  rfl

/-- The all-`none` state reader used by witnesses: every lookup fails. -/
def stateNone : StateReader := ⟨fun _ => none, fun _ _ => none⟩

/-- C10 witness: flag word 16 (only the `custom` bit set), one element
equal to the all-zero picker buffer, resolved against the reader that
answers nothing — the result is the empty vector. -/
theorem resolve_all_zero_picker_returns_empty_witness :
    (⟨⟨0, true, false, .HereElements⟩, [], none, some ⟨[]⟩⟩ :
        ElementPicker).resolve stateNone ⟨1, 2, 3⟩ ⟨0, 1, 1, 1, 0⟩ = .ok [] :=
  (resolve_all_zero_picker_returns_empty 16 ⟨0, true, false, .HereElements⟩
      [List.replicate 32 0] _ (by rfl) rfl rfl (by rfl)).2
    stateNone ⟨1, 2, 3⟩ ⟨0, 1, 1, 1, 0⟩

/-- C6 witness: a 32-byte ENUM blob declaring one aux type whose first
`aux_types` byte is zero parses as `BadAuxTypes`. -/
theorem types_layout_violations_rejected_witness :
    EnumMatterHeader.fromBlob
      ([0x45, 0x4E, 0x55, 0x4D, 0x11, 0, 0, 0] ++ List.replicate 24 0)
      = .error .BadAuxTypes :=
  ((types_layout_violations_rejected
      ([0x45, 0x4E, 0x55, 0x4D, 0x11, 0, 0, 0] ++ List.replicate 24 0)
      (by decide) (by decide) (by decide) (by decide)).1 (by decide)).1 (by decide)

end EveryTypes
